import Mathlib

set_option maxRecDepth 100000

/-!
Shallow embedding of the privacy-aware RAG pipeline
(`app/models.py`, `app/documents.py`, `app/rag.py`, `app/fga.py`,
`app/auth.py`, `app/config.py`, `app/main.py`).

Python strings are embedded as `String`, `Optional[str]` as `Option String`
(Python truthiness of an optional string is `falsyStr`), exceptions as
`Except`, and the two remote collaborators (the OpenFGA Check endpoint and
the Auth0 JWT verification) as explicit oracle parameters.
-/

namespace PrivacyRAG

/-- Decidable equality of `Except` results, used to evaluate the embedded
fallible operations on concrete inputs. -/
instance instDecidableEqExcept {ε α : Type} [DecidableEq ε] [DecidableEq α] :
    DecidableEq (Except ε α) := fun x y =>
  match x, y with
  | Except.error a, Except.error b => decidable_of_iff (a = b) (by simp)
  | Except.error _, Except.ok _ => isFalse (by simp)
  | Except.ok _, Except.error _ => isFalse (by simp)
  | Except.ok a, Except.ok b => decidable_of_iff (a = b) (by simp)

/-- Python's `str.lower()` (ASCII inputs only appear in this code base). -/
def pyLower (s : String) : String := String.mk (s.data.map Char.toLower)

/-- Python's `str.startswith(pre)`. -/
def pyStartsWith (s pre : String) : Bool := pre.data.isPrefixOf s.data

/-- Python's substring operator `pat in s` on strings. -/
def strIn (pat s : String) : Bool :=
  decide (pat.toList <:+: s.toList)

/-- Python truthiness of an `Optional[str]`: `None` and `""` are falsy. -/
def falsyStr : Option String → Bool
  | none => true
  | some s => s.isEmpty

/-- Python truthiness of an `Optional[str]`, positively. -/
def truthyStr (o : Option String) : Bool := !(falsyStr o)

/-- `app/models.py` `Document`. -/
structure Document where
  id : String
  title : String
  content : String
  is_sensitive : Bool
  department : Option String := none
deriving DecidableEq

/-- `app/models.py` `QueryResponse`. -/
structure QueryResponse where
  answer : String
  retrieved_documents : List String
  blocked_documents : List String
deriving DecidableEq

/-- `app/config.py` `Settings` (all fields default as in the source). -/
structure Settings where
  auth0_domain : Option String := none
  auth0_audience : Option String := none
  auth0_issuer : Option String := none
  allow_dev_auth : Bool := true
  fga_api_url : Option String := none
  fga_store_id : Option String := none
  fga_model_id : Option String := none
  fga_bearer_token : Option String := none
  rag_top_k : Nat := 3
deriving DecidableEq

/-- `app/documents.py` `DocumentStore.search_documents`: case-insensitive
substring match of the query against each document's content or title, in
collection order; if nothing matches, the first three documents are
returned as a fallback. -/
def search_documents (documents : List Document) (query : String) : List Document :=
  let query_lower := pyLower query
  let relevant_docs := documents.filter fun doc =>
    strIn query_lower (pyLower doc.content) || strIn query_lower (pyLower doc.title)
  if relevant_docs.isEmpty then documents.take 3 else relevant_docs

/-- One iteration of the permission loop in
`app/rag.py` `PrivacyAwareRAG.answer_question`: append the document to the
allowed list or its id to the blocked list. -/
def gate_step (can_access : Document → Bool) (acc : List Document × List String)
    (doc : Document) : List Document × List String :=
  if can_access doc then (acc.1 ++ [doc], acc.2) else (acc.1, acc.2 ++ [doc.id])

/-- The permission loop of `app/rag.py` `PrivacyAwareRAG.answer_question`
(steps 2): partitions the candidates into allowed documents and blocked
ids, in candidate order.  `can_access` stands for
`self.auth_client.can_user_access_document(user, doc)` for the fixed
requesting user (the `Auth0FGAClient` class is imported by `app/rag.py`
but not defined under `src/`, so the per-document decision is abstract). -/
def gate (can_access : Document → Bool) (candidates : List Document) :
    List Document × List String :=
  candidates.foldl (gate_step can_access) ([], [])

/-- `app/rag.py` `PrivacyAwareRAG._generate_answer`. -/
def generate_answer (question : String) (documents : List Document) : String :=
  if documents.isEmpty then
    "I couldn't find any information you're authorized to access that answers your question."
  else
    String.intercalate "\n"
      ("Based on the documents I can access, here's what I found:\n" ::
        documents.map fun doc => "- " ++ doc.title ++ ": " ++ doc.content.take 100 ++ "...")

/-- Steps 2-4 of `app/rag.py` `PrivacyAwareRAG.answer_question`, taking the
candidate list produced by step 1 as input. -/
def answer_from_candidates (can_access : Document → Bool)
    (candidate_documents : List Document) (question : String) : QueryResponse :=
  let ab := gate can_access candidate_documents
  { answer := generate_answer question ab.1
    retrieved_documents := ab.1.map Document.id
    blocked_documents := ab.2 }

/-- `app/rag.py` `PrivacyAwareRAG.answer_question`. -/
def answer_question (can_access : Document → Bool) (documents : List Document)
    (question : String) : QueryResponse :=
  answer_from_candidates can_access (search_documents documents question) question

/-- The six sample documents of `app/documents.py`
`DocumentStore._load_sample_documents`, in source order. -/
def sample_documents : List Document :=
  [ { id := "doc_public_1", title := "Company Holiday Schedule",
      content := "The company will be closed on December 25th and January 1st. All employees get 10 vacation days per year.",
      is_sensitive := false },
    { id := "doc_public_2", title := "Office Policies",
      content := "The office hours are 9 AM to 5 PM. Remote work is allowed on Fridays. Dress code is business casual.",
      is_sensitive := false },
    { id := "doc_public_3", title := "Health Benefits",
      content := "All employees are eligible for health insurance. The company covers 80% of premiums. Dental and vision are included.",
      is_sensitive := false },
    { id := "doc_sensitive_1", title := "Q4 Budget Report",
      content := "The Q4 budget allocation is $500,000. Marketing gets $150k, Engineering gets $200k, Sales gets $100k, and Operations gets $50k.",
      is_sensitive := true },
    { id := "doc_sensitive_2", title := "Salary Information",
      content := "Manager salaries range from $120k to $180k. Senior engineers earn $100k-$140k. Junior employees start at $60k.",
      is_sensitive := true },
    { id := "doc_sensitive_3", title := "Executive Strategy",
      content := "The company plans to expand to 3 new markets in 2024. We're considering an IPO in 2025. Confidential discussions with investors are ongoing.",
      is_sensitive := true } ]

/-- `app/fga.py` `FGAObject`. -/
structure FGAObject where
  type : String
  id : String
deriving DecidableEq

/-- `app/fga.py` `FGAObject.to_fga`. -/
def FGAObject.to_fga (o : FGAObject) : String := o.type ++ ":" ++ o.id

/-- Outcome of the HTTP round trip to the OpenFGA Check endpoint in
`app/fga.py` `fga_check`: `failure` is a transport error or a non-2xx
status (`resp.raise_for_status()` raises), `ok a` is a 2xx JSON body whose
optional `allowed` field is `a`. -/
inductive FGAReply where
  | failure
  | ok (allowed : Option Bool)
deriving DecidableEq

/-- The remote FGA decision point, keyed by the request body fields
`(user, relation, object)`. -/
def FGARemote := String → String → String → FGAReply

/-- `app/fga.py` `fga_check`.  When FGA is not configured (any of the API
URL, store id or bearer token falsy) it answers from the local demo
fallback; otherwise it consults the remote Check endpoint, propagating a
transport/HTTP error as an exception (`Except.error`) and reading a
missing `allowed` field as `False`. -/
def fga_check (settings : Settings) (user relation : String) (obj : FGAObject)
    (remote : FGARemote) : Except Unit Bool :=
  if !(truthyStr settings.fga_api_url && truthyStr settings.fga_store_id &&
      truthyStr settings.fga_bearer_token) then
    Except.ok (if strIn "manager" (pyLower user) then true else strIn "public" (pyLower obj.id))
  else
    match remote user relation obj.to_fga with
    | FGAReply.failure => Except.error ()
    | FGAReply.ok a => Except.ok (a.getD false)

/-- `app/auth.py` `AuthContext`. -/
structure AuthContext where
  subject : String
deriving DecidableEq

/-- The 401 detail string of the dev-mode branch of `app/auth.py`
`get_auth_context`. -/
def devAuthDetail : String :=
  "Auth not configured. Provide X-Dev-User header (or set AUTH0_DOMAIN/AUTH0_AUDIENCE)."

/-- `app/auth.py` `get_auth_context`.  Errors are `(status, detail)` pairs
(`HTTPException`).  The network-and-PyJWT bearer-token verification (JWKS
fetch, header/kid lookup, RS256 decode, `sub` extraction) is abstracted as
the oracle `jwtResolve`, applied to the `Authorization` header value. -/
def get_auth_context (settings : Settings) (authorization x_dev_user : Option String)
    (jwtResolve : String → Except (Nat × String) String) :
    Except (Nat × String) AuthContext :=
  if (falsyStr settings.auth0_domain || falsyStr settings.auth0_audience) &&
      settings.allow_dev_auth then
    match x_dev_user with
    | none => Except.error (401, devAuthDetail)
    | some u =>
      if u.isEmpty then Except.error (401, devAuthDetail)
      else Except.ok { subject := u }
  else
    match authorization with
    | none => Except.error (401, "Missing Bearer token")
    | some a =>
      if pyStartsWith (pyLower a) "bearer " then
        match jwtResolve a with
        | Except.error e => Except.error e
        | Except.ok sub => Except.ok { subject := sub }
      else Except.error (401, "Missing Bearer token")

/-- Modelled from the spec: the Document record of spec section 3
(identifier, title, body text) as used by `load_documents`/`TinyRAG` from
`app.rag`, which `app/main.py` imports; that version of the module is not
under `src/` (src/app/rag.py holds `PrivacyAwareRAG` instead), only the
caller `ask` is. -/
structure DocRecord where
  id : String
  title : String
  text : String
deriving DecidableEq

/-- Modelled from the spec: the Tokenizer of spec section 4.1 — lower-case,
take maximal runs of ASCII letters/digits/underscore, drop tokens of
length at most 1.  Helper: split a lowered character list into runs of
token characters (non-token characters separate runs; empty runs are kept
here and discarded by the length filter in `tokenize`). -/
def isTokenChar (c : Char) : Bool :=
  ('a' ≤ c && c ≤ 'z') || ('0' ≤ c && c ≤ '9') || c == '_'

/-- Modelled from the spec: run splitter for the Tokenizer (spec section
4.1); `cur` is the current run, reversed. -/
def runsAux : List Char → List Char → List (List Char)
  | cur, [] => [cur.reverse]
  | cur, c :: cs =>
    if isTokenChar c then runsAux (c :: cur) cs else cur.reverse :: runsAux [] cs

/-- Modelled from the spec: `tokenize(text)` of spec section 4.1. -/
def tokenize (text : String) : List String :=
  ((runsAux [] (pyLower text).toList).filter fun r => 2 ≤ r.length).map fun r => String.mk r

/-- Modelled from the spec: the token sequence a document is indexed under
(spec section 4.2 concatenates title and body before tokenizing). -/
def docTokens (d : DocRecord) : List String := tokenize (d.title ++ " " ++ d.text)

/-- Modelled from the spec: document frequency of a token (spec section
4.2): the number of documents containing it at least once. -/
def docFreq (docs : List DocRecord) (t : String) : Nat :=
  (docs.filter fun d => decide (t ∈ docTokens d)).length

/-- Modelled from the spec: the Ranker's score of one document (spec
section 4.3 step 2): the sum over distinct query tokens of
`termFrequency × weight N documentFrequency`, where the source's weight
`ln((N+1)/(documentFrequency+1)) + 1` over floating-point numbers is
abstracted as the arbitrary integer-valued weight parameter `idf`, taking
the total document count and the token's document frequency; the ranking
properties proved below hold for every weight assignment.  Tokens absent
from the document have term frequency 0 and contribute nothing. -/
def score (idf : Nat → Nat → ℤ) (docs : List DocRecord) (qts : List String)
    (d : DocRecord) : ℤ :=
  (qts.dedup.map fun t => ((docTokens d).count t : ℤ) * idf docs.length (docFreq docs t)).sum

/-- Modelled from the spec: the ranking order of spec section 4.3 step 4 —
a scored document comes before another when its score is at least as
large (descending by score). -/
def rankRel (a b : DocRecord × ℤ) : Prop := b.2 ≤ a.2

instance rankRelDecidable : DecidableRel rankRel := fun a b => Int.decLe b.2 a.2

instance rankRelTotal : IsTotal (DocRecord × ℤ) rankRel := ⟨fun a b => le_total b.2 a.2⟩

instance rankRelTrans : IsTrans (DocRecord × ℤ) rankRel := ⟨fun _ _ _ h1 h2 => le_trans h2 h1⟩

/-- Modelled from the spec: stable sort by non-increasing score (spec
section 4.3 step 4; insertion sort is stable, so equal scores keep their
original collection order). -/
def sortDesc (l : List (DocRecord × ℤ)) : List (DocRecord × ℤ) :=
  List.insertionSort rankRel l

/-- Modelled from the spec: `TinyRAG.search(query, top_k)` (spec section
4.3): tokenize the query (empty token list yields no candidates), score
every document, exclude zero scores, sort by score descending with ties in
collection order, truncate to `top_k`. -/
def tinySearch (idf : Nat → Nat → ℤ) (docs : List DocRecord) (query : String)
    (top_k : Nat) : List (DocRecord × ℤ) :=
  let qts := tokenize query
  if qts.isEmpty then []
  else
    let scored := docs.map fun d => (d, score idf docs qts d)
    let nonzero := scored.filter fun p => decide (p.2 ≠ 0)
    (sortDesc nonzero).take top_k

/-- How `app/main.py` `ask` can end: an `HTTPException` raised in the
handler, or an exception escaping `fga_check` (a dependency failure the
handler does not catch). -/
inductive AskError where
  | http (status : Nat) (detail : String)
  | dependency
deriving DecidableEq

/-- `app/main.py` `AskResponse`. -/
structure AskResponse where
  answer : String
  used_documents : List String
  blocked_documents : List String
deriving DecidableEq

/-- The FGA query `app/main.py` `ask` issues for one candidate id. -/
def askCheck (settings : Settings) (remote : FGARemote) (subject did : String) :
    Except Unit Bool :=
  fga_check settings ("user:" ++ subject) "view" { type := "document", id := did } remote

/-- The permission loop of `app/main.py` `ask` (step 2): appends each hit
to the allowed documents or its id to the blocked ids; an exception from
`fga_check` aborts the loop. -/
def gateHits (settings : Settings) (remote : FGARemote) (subject : String) :
    List (DocRecord × ℤ) → List DocRecord × List String →
    Except Unit (List DocRecord × List String)
  | [], acc => Except.ok acc
  | (doc, _) :: rest, acc =>
    match askCheck settings remote subject doc.id with
    | Except.error e => Except.error e
    | Except.ok ok =>
      if ok then gateHits settings remote subject rest (acc.1 ++ [doc], acc.2)
      else gateHits settings remote subject rest (acc.1, acc.2 ++ [doc.id])

/-- `app/main.py` `ask`: retrieve candidates with `rag.search`, filter them
through `fga_check`, 403 when nothing is allowed, else stitch the allowed
documents into the answer. -/
def ask (settings : Settings) (remote : FGARemote) (docs : List DocRecord)
    (idf : Nat → Nat → ℤ) (subject question : String) : Except AskError AskResponse :=
  let hits := tinySearch idf docs question settings.rag_top_k
  match gateHits settings remote subject hits ([], []) with
  | Except.error _ => Except.error AskError.dependency
  | Except.ok (allowed_docs, blocked) =>
    if allowed_docs.isEmpty then
      Except.error (AskError.http 403 "No authorized documents matched your question.")
    else
      Except.ok
        { answer := "Here’s what I found in the documents you’re allowed to see:\n\n" ++
            String.intercalate "\n\n"
              (allowed_docs.map fun d => "[" ++ d.id ++ "] " ++ d.title ++ "\n" ++ d.text)
          used_documents := allowed_docs.map DocRecord.id
          blocked_documents := blocked }

/-! Concrete fixtures for evaluating the embedded operations. -/

/-- A public document for concrete runs. -/
def pubDoc : Document :=
  { id := "pub1", title := "Holidays", content := "office closed in december",
    is_sensitive := false }

/-- A sensitive document for concrete runs. -/
def secDocA : Document :=
  { id := "sec1", title := "Salaries", content := "manager salary bands",
    is_sensitive := true }

/-- `secDocA` with its content (and nothing else) changed. -/
def secDocB : Document :=
  { id := "sec1", title := "Salaries", content := "redacted",
    is_sensitive := true }

/-- A concrete authorization decision: non-sensitive documents only (an
employee under the demo policy). -/
def employeeAuth (d : Document) : Bool := !d.is_sensitive

/-- A concrete ranked document for the main.py pipeline. -/
def alphaDoc : DocRecord := { id := "d1", title := "alpha beta", text := "gamma" }

/-- Settings with FGA fully configured. -/
def cfgSettings : Settings :=
  { fga_api_url := some "https://api.fga.example", fga_store_id := some "store1",
    fga_bearer_token := some "token1" }

/-- A remote FGA endpoint that is unreachable (every call errors). -/
def failRemote : FGARemote := fun _ _ _ => FGAReply.failure

/-- A constant weight assignment for concrete ranking runs. -/
def oneIdf : Nat → Nat → ℤ := fun _ _ => 1

/-- A JWT oracle that rejects everything (never consulted in dev mode). -/
def noJwt : String → Except (Nat × String) String := fun _ => Except.error (401, "")

/-- The shape two candidate lists share when they differ at most in the
title and content of denied candidates: pointwise equal ids, equal
authorization decisions, and equality of every allowed candidate. -/
def SameUpToBlockedText (can_access : Document → Bool) (d d' : Document) : Prop :=
  d.id = d'.id ∧ can_access d = can_access d' ∧ (can_access d = true → d = d')

/-! Theorems. -/

/-- The permission loop grows its accumulators by the allowed suffix and the
blocked-id suffix of the remaining candidates. -/
theorem gate_foldl (f : Document → Bool) (l : List Document) (a : List Document)
    (b : List String) :
    l.foldl (gate_step f) (a, b) =
      (a ++ l.filter f, b ++ (l.filter fun d => !(f d)).map Document.id) := by
  induction l generalizing a b with
  | nil => simp
  | cons d l ih =>
    by_cases h : f d
    · simp [gate_step, h, ih, List.filter_cons]
    · simp [gate_step, h, ih, List.filter_cons]

/-- The permission loop partitions candidates into the allowed documents and
the blocked ids, each in candidate order. -/
theorem gate_eq (f : Document → Bool) (l : List Document) :
    gate f l = (l.filter f, (l.filter fun d => !(f d)).map Document.id) := by
  simpa using gate_foldl f l [] []

/-- C7: for every request, the authorization gate preserves the retrieval
order — the allowed-document sequence is an order-preserving subsequence of
the candidate sequence, and the used-id and blocked-id sequences are
order-preserving subsequences of the candidate id sequence. -/
theorem gate_preserves_rank_order (can_access : Document → Bool)
    (documents : List Document) (question : String) :
    List.Sublist (gate can_access (search_documents documents question)).1
        (search_documents documents question) ∧
    List.Sublist (answer_question can_access documents question).retrieved_documents
        ((search_documents documents question).map Document.id) ∧
    List.Sublist (answer_question can_access documents question).blocked_documents
        ((search_documents documents question).map Document.id) := by
  refine ⟨?_, ?_, ?_⟩
  · rw [gate_eq]; exact List.filter_sublist _
  · show List.Sublist
      ((gate can_access (search_documents documents question)).1.map Document.id) _
    rw [gate_eq]
    exact (List.filter_sublist _).map _
  · show List.Sublist ((gate can_access (search_documents documents question)).2) _
    rw [gate_eq]
    exact (List.filter_sublist _).map _

/-- The candidate list is a sublist of the collection. -/
theorem search_documents_sublist (documents : List Document) (query : String) :
    List.Sublist (search_documents documents query) documents := by
  simp only [search_documents]
  split
  · exact List.take_sublist _ _
  · exact List.filter_sublist _

/-- C2: for every request over a collection with distinct document ids, the
used and blocked identifier lists partition the candidate id set — their
union (as a set) is exactly the set of candidate ids and they are
disjoint. -/
theorem used_blocked_partition (can_access : Document → Bool)
    (documents : List Document) (question : String)
    (hids : (documents.map Document.id).Nodup) :
    (∀ x, (x ∈ (answer_question can_access documents question).retrieved_documents ∨
        x ∈ (answer_question can_access documents question).blocked_documents) ↔
      x ∈ (search_documents documents question).map Document.id) ∧
    ∀ x, x ∈ (answer_question can_access documents question).retrieved_documents →
      x ∉ (answer_question can_access documents question).blocked_documents := by
  have hsub := search_documents_sublist documents question
  have hnd : ((search_documents documents question).map Document.id).Nodup :=
    (hsub.map Document.id).nodup hids
  have hinj := List.inj_on_of_nodup_map hnd
  constructor
  · intro x
    simp only [answer_question, answer_from_candidates, gate_eq, List.mem_map,
      List.mem_filter, Bool.not_eq_true']
    constructor
    · rintro (⟨d, ⟨hd, _⟩, rfl⟩ | ⟨d, ⟨hd, _⟩, rfl⟩) <;> exact ⟨d, hd, rfl⟩
    · rintro ⟨d, hd, rfl⟩
      by_cases h : can_access d
      · exact Or.inl ⟨d, ⟨hd, h⟩, rfl⟩
      · exact Or.inr ⟨d, ⟨hd, Bool.not_eq_true _ ▸ h⟩, rfl⟩
  · intro x hx hx'
    simp only [answer_question, answer_from_candidates, gate_eq, List.mem_map,
      List.mem_filter, Bool.not_eq_true'] at hx hx'
    obtain ⟨d1, ⟨hm1, ha1⟩, rfl⟩ := hx
    obtain ⟨d2, ⟨hm2, ha2⟩, heq⟩ := hx'
    have : d2 = d1 := hinj hm2 hm1 heq
    subst this
    rw [ha1] at ha2
    exact absurd ha2 (by simp)

/-- C2 witness: the partition invariant holds on the built-in sample store
(whose ids are distinct), an employee caller and the query "salary". -/
theorem used_blocked_partition_witness :
    (∀ x, (x ∈ (answer_question employeeAuth sample_documents "salary").retrieved_documents ∨
        x ∈ (answer_question employeeAuth sample_documents "salary").blocked_documents) ↔
      x ∈ (search_documents sample_documents "salary").map Document.id) ∧
    ∀ x, x ∈ (answer_question employeeAuth sample_documents "salary").retrieved_documents →
      x ∉ (answer_question employeeAuth sample_documents "salary").blocked_documents :=
  used_blocked_partition employeeAuth sample_documents "salary" (by decide)

/-- Denied candidates' text does not reach the allowed list: the allowed
lists of two related candidate lists coincide. -/
theorem forall2_filter_allowed (can_access : Document → Bool)
    {cands cands' : List Document}
    (h : List.Forall₂ (SameUpToBlockedText can_access) cands cands') :
    cands.filter can_access = cands'.filter can_access := by
  induction h with
  | nil => rfl
  | @cons d d' l l' hd htl ih =>
    obtain ⟨hid, hacc, hall⟩ := hd
    rw [List.filter_cons, List.filter_cons, ← hacc]
    cases hc : can_access d
    · simpa using ih
    · simp [ih, hall hc]

/-- The blocked id lists of two related candidate lists coincide. -/
theorem forall2_blocked_ids (can_access : Document → Bool)
    {cands cands' : List Document}
    (h : List.Forall₂ (SameUpToBlockedText can_access) cands cands') :
    (cands.filter fun d => !(can_access d)).map Document.id =
      (cands'.filter fun d => !(can_access d)).map Document.id := by
  induction h with
  | nil => rfl
  | @cons d d' l l' hd htl ih =>
    obtain ⟨hid, hacc, hall⟩ := hd
    rw [List.filter_cons, List.filter_cons, ← hacc]
    cases hc : can_access d
    · simp [ih, hid]
    · simpa using ih

/-- C1 amended: downstream of retrieval, blocked documents' title and body
never reach the composed answer — if two candidate lists agree pointwise on
ids and authorization decisions and agree entirely on every allowed
candidate (so they differ at most in the text of denied candidates), the
gate-and-compose stage produces identical responses.  (The whole-pipeline
hyperproperty fails: a blocked document's content still steers retrieval,
see the counterexample.) -/
theorem composer_ignores_blocked_text (can_access : Document → Bool) (question : String)
    (cands cands' : List Document)
    (h : List.Forall₂ (SameUpToBlockedText can_access) cands cands') :
    answer_from_candidates can_access cands question =
      answer_from_candidates can_access cands' question := by
  simp only [answer_from_candidates, gate_eq, forall2_filter_allowed can_access h,
    forall2_blocked_ids can_access h]

/-- C1 counterexample: `secDocA` and `secDocB` differ only in content, both
are denied, yet the two full runs compose different answers — with
`secDocA` the query matches only the denied document and the answer is the
"nothing authorized" text, while with `secDocB` nothing matches, the
retrieval fallback returns the first documents and the answer contains the
public document's text.  A blocked document's content therefore influences
the composed answer. -/
theorem blocked_content_influences_answer :
    employeeAuth secDocA = false ∧ employeeAuth secDocB = false ∧
    secDocA.id = secDocB.id ∧ secDocA.title = secDocB.title ∧
    answer_question employeeAuth [pubDoc, secDocA] "salary" ≠
      answer_question employeeAuth [pubDoc, secDocB] "salary" := by decide

/-- C1 amended witness: changing the denied document's content leaves the
gate-and-compose stage's response unchanged on a concrete candidate
list. -/
theorem composer_ignores_blocked_text_witness :
    answer_from_candidates employeeAuth [pubDoc, secDocA] "salary" =
      answer_from_candidates employeeAuth [pubDoc, secDocB] "salary" :=
  composer_ignores_blocked_text employeeAuth "salary" [pubDoc, secDocA] [pubDoc, secDocB]
    (List.Forall₂.cons ⟨rfl, rfl, fun _ => rfl⟩
      (List.Forall₂.cons ⟨rfl, rfl, fun hx => absurd hx (by decide)⟩ List.Forall₂.nil))

/-- C8: retrieval is a pure function — two calls of `search_documents` with
the same collection and query are the same term of the embedding, hence
yield identical ordered output (there is no hidden state or randomness in
the embedded operation). -/
theorem search_documents_deterministic (documents : List Document) (query : String) :
    search_documents documents query = search_documents documents query := rfl

/-- C4: on the built-in sample store, a query whose tokens appear in no
document ("zzzz") does not return the empty sequence — the code substitutes
the first three documents as a fallback, contradicting the claim (the spec
itself flags this fallback as a bug). -/
theorem search_documents_unmatched_fallback :
    search_documents sample_documents "zzzz" = sample_documents.take 3 ∧
    sample_documents.take 3 ≠ [] := by decide

/-- The sort keeps each tie class (the entries of one fixed score) exactly
as it stood in its input: insertion sort is stable. -/
theorem filter_sortDesc (l : List (DocRecord × ℤ)) (s : ℤ) :
    (sortDesc l).filter (fun p => decide (p.2 = s)) =
      l.filter (fun p => decide (p.2 = s)) := by
  have hperm : ((sortDesc l).filter (fun p => decide (p.2 = s))).Perm
      (l.filter (fun p => decide (p.2 = s))) :=
    (List.perm_insertionSort rankRel l).filter _
  have hpw : (l.filter (fun p => decide (p.2 = s))).Pairwise rankRel := by
    refine List.pairwise_of_forall_mem_list ?_
    intro a ha b hb
    rw [List.mem_filter] at ha hb
    have ha2 : a.2 = s := of_decide_eq_true ha.2
    have hb2 : b.2 = s := of_decide_eq_true hb.2
    show b.2 ≤ a.2
    rw [ha2, hb2]
  have hsubsort : List.Sublist (l.filter (fun p => decide (p.2 = s))) (sortDesc l) :=
    List.sublist_insertionSort hpw (List.filter_sublist l)
  have hself : (l.filter (fun p => decide (p.2 = s))).filter (fun p => decide (p.2 = s)) =
      l.filter (fun p => decide (p.2 = s)) :=
    List.filter_eq_self.mpr fun a ha => (List.mem_filter.mp ha).2
  have hsub2 : List.Sublist (l.filter (fun p => decide (p.2 = s)))
      ((sortDesc l).filter (fun p => decide (p.2 = s))) := by
    rw [← hself]
    exact hsubsort.filter _
  exact (hsub2.eq_of_length hperm.length_eq.symm).symm

/-- C5: for every weight assignment, collection, query and bound,
`tinySearch` returns at most `top_k` results, sorted by non-increasing
score, and each tie class of the output (the results of one fixed score) is
an order-preserving subsequence of the collection-ordered scored list, so
equal-score ties stand in original collection order. -/
theorem tinySearch_ranked (idf : Nat → Nat → ℤ) (docs : List DocRecord)
    (query : String) (top_k : Nat) :
    (tinySearch idf docs query top_k).length ≤ top_k ∧
    (tinySearch idf docs query top_k).Pairwise (fun a b => b.2 ≤ a.2) ∧
    ∀ s : ℤ, List.Sublist
      ((tinySearch idf docs query top_k).filter (fun p => decide (p.2 = s)))
      ((docs.map fun d => (d, score idf docs (tokenize query) d)).filter
        (fun p => decide (p.2 = s))) := by
  simp only [tinySearch]
  split
  · exact ⟨by simp, by simp, fun s => by simp⟩
  · refine ⟨?_, ?_, fun s => ?_⟩
    · exact List.length_take_le _ _
    · exact List.Pairwise.sublist (List.take_sublist _ _)
        (List.sorted_insertionSort rankRel _)
    · have h1 := (List.take_sublist top_k (sortDesc ((docs.map fun d =>
          (d, score idf docs (tokenize query) d)).filter
          fun p => decide (p.2 ≠ 0)))).filter (fun p : DocRecord × ℤ => decide (p.2 = s))
      rw [filter_sortDesc] at h1
      exact h1.trans ((List.filter_sublist _).filter _)

/-- A document reaches the allowed accumulator only when it was already
there or its FGA check succeeded with `allowed = true`. -/
theorem gateHits_allowed_checked (settings : Settings) (remote : FGARemote)
    (subject : String) :
    ∀ (hits : List (DocRecord × ℤ)) (acc out : List DocRecord × List String),
      gateHits settings remote subject hits acc = Except.ok out →
      ∀ d ∈ out.1, d ∈ acc.1 ∨ ∃ sc : ℤ, (d, sc) ∈ hits ∧
        askCheck settings remote subject d.id = Except.ok true := by
  intro hits
  induction hits with
  | nil =>
    intro acc out hok d hd
    simp only [gateHits] at hok
    cases hok
    exact Or.inl hd
  | cons p rest ih =>
    intro acc out hok d hd
    obtain ⟨doc, sc⟩ := p
    simp only [gateHits] at hok
    cases hcheck : askCheck settings remote subject doc.id with
    | error e => rw [hcheck] at hok; cases hok
    | ok b =>
      rw [hcheck] at hok
      cases b with
      | true =>
        simp only [if_pos] at hok
        rcases ih _ _ hok d hd with hmem | ⟨sc', hsc', hck⟩
        · rcases List.mem_append.mp hmem with h | h
          · exact Or.inl h
          · have : d = doc := by simpa using h
            subst this
            exact Or.inr ⟨sc, List.mem_cons_self _ _, hcheck⟩
        · exact Or.inr ⟨sc', List.mem_cons_of_mem _ hsc', hck⟩
      | false =>
        simp only [if_neg] at hok
        rcases ih _ _ hok d hd with hmem | ⟨sc', hsc', hck⟩
        · exact Or.inl hmem
        · exact Or.inr ⟨sc', List.mem_cons_of_mem _ hsc', hck⟩

/-- One failing FGA check makes the whole permission loop fail. -/
theorem gateHits_error_of_failure (settings : Settings) (remote : FGARemote)
    (subject : String) :
    ∀ (hits : List (DocRecord × ℤ)) (acc : List DocRecord × List String),
      (∃ p ∈ hits, askCheck settings remote subject p.1.id = Except.error ()) →
      gateHits settings remote subject hits acc = Except.error () := by
  intro hits
  induction hits with
  | nil => rintro acc ⟨p, hp, _⟩; cases hp
  | cons q rest ih =>
    rintro acc ⟨p, hp, herr⟩
    obtain ⟨doc, sc⟩ := q
    simp only [gateHits]
    rcases List.mem_cons.mp hp with rfl | hmem
    · rw [herr]
    · cases hcheck : askCheck settings remote subject doc.id with
      | error e => rfl
      | ok b =>
        cases b <;> simp only [if_pos, if_neg] <;> exact ih _ ⟨p, hmem, herr⟩

/-- C3 amended: authorization failures never allow — a document appears in
`used_documents` only if its FGA check succeeded with `allowed = true`; and
when the Authorizer errors on any candidate, the candidate does not resolve
to blocked — the whole request aborts with a dependency error instead. -/
theorem authorizer_failure_fail_closed (settings : Settings) (remote : FGARemote)
    (docs : List DocRecord) (idf : Nat → Nat → ℤ) (subject question : String) :
    ((∃ p ∈ tinySearch idf docs question settings.rag_top_k,
        askCheck settings remote subject p.1.id = Except.error ()) →
      ask settings remote docs idf subject question = Except.error AskError.dependency) ∧
    ∀ resp, ask settings remote docs idf subject question = Except.ok resp →
      ∀ x ∈ resp.used_documents, ∃ p ∈ tinySearch idf docs question settings.rag_top_k,
        p.1.id = x ∧ askCheck settings remote subject p.1.id = Except.ok true := by
  constructor
  · intro hex
    have herr := gateHits_error_of_failure settings remote subject
      (tinySearch idf docs question settings.rag_top_k) ([], []) hex
    simp only [ask, herr]
  · intro resp hok x hx
    simp only [ask] at hok
    cases hgate : gateHits settings remote subject
        (tinySearch idf docs question settings.rag_top_k) ([], []) with
    | error e => rw [hgate] at hok; cases hok
    | ok out =>
      rw [hgate] at hok
      obtain ⟨allowed, blocked⟩ := out
      dsimp only at hok
      by_cases hemp : allowed.isEmpty
      · rw [if_pos hemp] at hok; cases hok
      · rw [if_neg hemp] at hok
        cases hok
        obtain ⟨d, hd, rfl⟩ := List.mem_map.mp hx
        rcases gateHits_allowed_checked settings remote subject _ _ _ hgate d hd with
          habs | ⟨sc, hmem, hck⟩
        · cases habs
        · exact ⟨(d, sc), hmem, rfl, hck⟩

/-- C3 counterexample: with FGA configured and the Check endpoint
unreachable, the sole candidate does not resolve to blocked — the request
aborts with a dependency error and produces no response (and hence no
blocked list containing the candidate) at all. -/
theorem authorizer_failure_aborts_request :
    ask cfgSettings failRemote [alphaDoc] oneIdf "u" "alpha" =
      Except.error AskError.dependency ∧
    (ask cfgSettings failRemote [alphaDoc] oneIdf "u" "alpha").toOption = none := by decide

/-- C3 amended witness: a concrete run with an unreachable Authorizer ends
in the dependency error. -/
theorem authorizer_failure_fail_closed_witness :
    ask cfgSettings failRemote [alphaDoc] oneIdf "u" "alpha" =
      Except.error AskError.dependency :=
  (authorizer_failure_fail_closed cfgSettings failRemote [alphaDoc] oneIdf "u" "alpha").1
    (by decide)

/-- C6: whenever the permission loop leaves the allowed list empty, `ask`
raises the explicit HTTP 403 "No authorized documents matched your
question." — a client-error status, not a server error. -/
theorem ask_no_authorized_is_403 (settings : Settings) (remote : FGARemote)
    (docs : List DocRecord) (idf : Nat → Nat → ℤ) (subject question : String)
    (blocked : List String)
    (h : gateHits settings remote subject
        (tinySearch idf docs question settings.rag_top_k) ([], []) =
      Except.ok ([], blocked)) :
    ask settings remote docs idf subject question =
      Except.error (AskError.http 403 "No authorized documents matched your question.") := by
  simp only [ask, h]
  rfl

/-- C6 witness: a concrete request with no candidates ends in the 403. -/
theorem ask_no_authorized_is_403_witness :
    ask {} failRemote [] oneIdf "u" "alpha beta" =
      Except.error (AskError.http 403 "No authorized documents matched your question.") :=
  ask_no_authorized_is_403 {} failRemote [] oneIdf "u" "alpha beta" [] (by decide)

/-- C9: with FGA unconfigured (any of API URL, store id, bearer token
falsy), `fga_check` returns the demo decision — true when the lowercased
user contains "manager", otherwise true exactly when the lowercased object
id contains "public" — for every relation and remote endpoint (both are
ignored). -/
theorem fga_check_demo_fallback (settings : Settings) (user relation : String)
    (obj : FGAObject) (remote : FGARemote)
    (h : (truthyStr settings.fga_api_url && truthyStr settings.fga_store_id &&
        truthyStr settings.fga_bearer_token) = false) :
    fga_check settings user relation obj remote =
      Except.ok (if strIn "manager" (pyLower user) then true
        else strIn "public" (pyLower obj.id)) := by
  simp only [fga_check, h]
  rfl

/-- C9 witness: the demo decision evaluated for a non-manager on a public
document under default (unconfigured) settings. -/
theorem fga_check_demo_fallback_witness :
    fga_check {} "user:bob_employee" "view" { type := "document", id := "doc_public_1" }
        failRemote =
      Except.ok (if strIn "manager" (pyLower "user:bob_employee") then true
        else strIn "public"
          (pyLower (FGAObject.id { type := "document", id := "doc_public_1" }))) :=
  fga_check_demo_fallback {} "user:bob_employee" "view"
    { type := "document", id := "doc_public_1" } failRemote (by decide)

/-- C10 counterexample: in dev mode an empty (but present) `X-Dev-User`
header is also rejected with 401, so "fails if and only if the header is
absent" does not hold. -/
theorem dev_auth_empty_header_401 :
    get_auth_context {} none (some "") noJwt = Except.error (401, devAuthDetail) ∧
    (some "" : Option String) ≠ none := by decide

/-- C10 amended: with Auth0 unconfigured and dev auth allowed,
`get_auth_context` fails with the 401 dev-auth error exactly when the
`X-Dev-User` header is absent or empty; for any non-empty header value it
returns the identity whose subject is exactly that value, with no
credential validation. -/
theorem get_auth_context_dev_mode (settings : Settings)
    (authorization x_dev_user : Option String)
    (jwtResolve : String → Except (Nat × String) String)
    (hdev : ((falsyStr settings.auth0_domain || falsyStr settings.auth0_audience) &&
        settings.allow_dev_auth) = true) :
    (get_auth_context settings authorization x_dev_user jwtResolve =
        Except.error (401, devAuthDetail) ↔
      (x_dev_user = none ∨ x_dev_user = some "")) ∧
    ∀ u, x_dev_user = some u → u ≠ "" →
      get_auth_context settings authorization x_dev_user jwtResolve =
        Except.ok { subject := u } := by
  constructor
  · cases x_dev_user with
    | none => simp [get_auth_context, hdev]
    | some u =>
      simp only [get_auth_context, hdev, if_pos]
      by_cases hu : u.isEmpty
      · have : u = "" := (String.isEmpty_iff u).mp hu
        subst this
        simp [hu]
      · have : ¬(u = "") := fun he => hu ((String.isEmpty_iff u).mpr he)
        simp [hu, this]
  · rintro u rfl hne
    have hu : u.isEmpty = false := by
      cases he : u.isEmpty
      · rfl
      · exact absurd ((String.isEmpty_iff u).mp he) hne
    simp [get_auth_context, hdev, hu]

/-- C10 amended witness: a concrete non-empty dev header is accepted
verbatim as the subject. -/
theorem get_auth_context_dev_mode_witness :
    get_auth_context {} none (some "alice_manager") noJwt =
      Except.ok { subject := "alice_manager" } :=
  (get_auth_context_dev_mode {} none (some "alice_manager") noJwt (by decide)).2
    "alice_manager" rfl (by decide)

end PrivacyRAG
